import Mathlib

/-!
Verification of the contract-compliance analysis core.

The development shallowly embeds the Python sources:
  * `src/src/tools.py`   — term extraction, the three compliance checkers,
    and risk aggregation;
  * `src/src/state.py`   — the recommendation mapper;
  * `src/src/agent.py`   — the resolver node's deterministic fallback path;
  * `src/src/config.py`  — policy thresholds and the risk-weight table.

Python regular-expression searches are embedded through a small
backtracking engine (`reRun` / `reSearch`) over an explicit pattern AST,
mirroring `re.search` semantics: leftmost match, alternatives tried in
written order, greedy and lazy repetition, one capturing group, lookahead,
and the `IGNORECASE` / `DOTALL` flags.  Numbers are modelled with `Int`
and `Rat` (Python ints and floats), fallible code with `Except`.
-/

namespace ContractGuard

/-- Pattern AST for the regular expressions used in `tools.py`.
`cls neg set ranges` is a character class (negated when `neg`), `star` is
greedy when `lazy = false`, `look` is a zero-width lookahead `(?=...)`,
and `grp` is capturing group 1. -/
inductive RE : Type where
  | eps
  | lit (c : Char)
  | cls (neg : Bool) (set : List Char) (ranges : List (Char × Char))
  | dot
  | seq (a b : RE)
  | alt (a b : RE)
  | star (lazy : Bool) (a : RE)
  | look (a : RE)
  | grp (a : RE)

/-- Character comparison, lowercasing both sides under `IGNORECASE`. -/
def charEq (ci : Bool) (a b : Char) : Bool :=
  if ci then a.toLower == b.toLower else a == b

/-- Raw character-class membership: explicit set or ranges. -/
def rawInClass (d : Char) (set : List Char) (ranges : List (Char × Char)) : Bool :=
  set.contains d || ranges.any (fun p => decide (p.1 ≤ d) && decide (d ≤ p.2))

/-- Class membership, also trying the other case under `IGNORECASE`. -/
def inClass (ci : Bool) (d : Char) (set : List Char) (ranges : List (Char × Char)) : Bool :=
  rawInClass d set ranges ||
    (ci && (rawInClass d.toLower set ranges || rawInClass d.toUpper set ranges))

/-- Span of capturing group 1, when it participated in the match. -/
abbrev Caps := Option (Nat × Nat)

/-- Backtracking matcher in continuation-passing style.  `ci` and `dotall`
are the `IGNORECASE` / `DOTALL` flags, `cs` the subject, `fuel` bounds the
recursion depth, `i` is the current position, `cap` the group-1 span so
far, and `k` the continuation receiving the position and captures after
the current node.  Matches Python's preference order: alternatives
left-to-right, greedy repetition longest-first, lazy shortest-first. -/
def reRun (ci dotall : Bool) (cs : List Char) :
    Nat → RE → Nat → Caps → (Nat → Caps → Option (Nat × Caps)) → Option (Nat × Caps)
  | 0, _, _, _, _ => none
  | fuel + 1, re, i, cap, k =>
    match re with
    | .eps => k i cap
    | .lit c =>
      match cs[i]? with
      | some d => if charEq ci d c then k (i + 1) cap else none
      | none => none
    | .dot =>
      match cs[i]? with
      | some d => if dotall || d ≠ '\n' then k (i + 1) cap else none
      | none => none
    | .cls neg set ranges =>
      match cs[i]? with
      | some d => if inClass ci d set ranges ≠ neg then k (i + 1) cap else none
      | none => none
    | .seq a b =>
      reRun ci dotall cs fuel a i cap (fun j c2 => reRun ci dotall cs fuel b j c2 k)
    | .alt a b =>
      match reRun ci dotall cs fuel a i cap k with
      | some res => some res
      | none => reRun ci dotall cs fuel b i cap k
    | .star lz a =>
      if lz then
        match k i cap with
        | some res => some res
        | none =>
          reRun ci dotall cs fuel a i cap (fun j c2 =>
            if j = i then none else reRun ci dotall cs fuel (.star lz a) j c2 k)
      else
        match reRun ci dotall cs fuel a i cap (fun j c2 =>
            if j = i then none else reRun ci dotall cs fuel (.star lz a) j c2 k) with
        | some res => some res
        | none => k i cap
    | .look a =>
      match reRun ci dotall cs fuel a i cap (fun j c2 => some (j, c2)) with
      | some _ => k i cap
      | none => none
    | .grp a =>
      reRun ci dotall cs fuel a i cap (fun j _ => k j (some (i, j)))

/-- Result of a successful `re.search`: start and end of the whole match
(`group(0)` is `cs[s:e]`) and the span of group 1. -/
structure MatchRes where
  s : Nat
  e : Nat
  g : Caps
deriving DecidableEq, Repr

/-- Depth bound handed to `reRun`; ample for every pattern in the source. -/
def reFuel (cs : List Char) : Nat := 1000 * (cs.length + 1)

/-- Try to match starting at position `i`, then at `i+1`, …; `k` counts the
remaining start positions, so all of `i, …, i+k` are tried. -/
def searchAux (ci dotall : Bool) (re : RE) (cs : List Char) : Nat → Nat → Option MatchRes
  | k, i =>
    match reRun ci dotall cs (reFuel cs) re i none (fun j g => some (j, g)) with
    | some (j, g) => some ⟨i, j, g⟩
    | none =>
      match k with
      | 0 => none
      | k + 1 => searchAux ci dotall re cs k (i + 1)

/-- Embedding of `re.search(pattern, s, flags)`: leftmost match wins. -/
def reSearch (ci dotall : Bool) (re : RE) (cs : List Char) : Option MatchRes :=
  searchAux ci dotall re cs cs.length 0

/-- Concatenation of a pattern list. -/
def RE.cat (rs : List RE) : RE := rs.foldr RE.seq RE.eps

/-- A literal string as a pattern. -/
def reStr (s : String) : RE := RE.cat (s.data.map RE.lit)

/-- Greedy `?`. -/
def RE.opt (a : RE) : RE := RE.alt a RE.eps

/-- Greedy `+`. -/
def RE.plus (a : RE) : RE := RE.seq a (RE.star false a)

/-- Lazy `+?`. -/
def RE.lazyPlus (a : RE) : RE := RE.seq a (RE.star true a)

/-- Exact repetition `{n}`. -/
def RE.rep (n : Nat) (a : RE) : RE := RE.cat (List.replicate n a)

/-- N-ary alternation, leftmost preferred. -/
def RE.altN (rs : List RE) : RE :=
  match rs with
  | [] => RE.eps
  | [r] => r
  | r :: rs => RE.alt r (RE.altN rs)

/-- Python's `\s` characters. -/
def pySpaceChars : List Char := [' ', '\t', '\n', '\r', '\x0b', '\x0c']

/-- `\d`. -/
def dClass : RE := RE.cls false "0123456789".data []

/-- `\s`. -/
def sClass : RE := RE.cls false pySpaceChars []

/-- `\w`. -/
def wClass : RE := RE.cls false ['_'] [('a', 'z'), ('A', 'Z'), ('0', '9')]

/-- `[\s-]`. -/
def sDashClass : RE := RE.cls false (pySpaceChars ++ ['-']) []

/-- `PARTIES:.*?(?=\n\d\.|\nEFFECTIVE)` (searched with DOTALL and IGNORECASE). -/
def partiesPat : RE :=
  RE.cat [reStr "PARTIES:", RE.star true RE.dot,
    RE.look (RE.alt (RE.cat [RE.lit '\n', dClass, RE.lit '.']) (reStr "\nEFFECTIVE"))]

/-- `(?:Provider|Licensor|Supplier|Consignor|Manufacturer|Developer):\s*([^"\n]+?)(?:\s*\("|\n)`
(searched case-sensitively inside the parties block). -/
def providerPat : RE :=
  RE.cat [RE.altN [reStr "Provider", reStr "Licensor", reStr "Supplier",
      reStr "Consignor", reStr "Manufacturer", reStr "Developer"],
    RE.lit ':', RE.star false sClass,
    RE.grp (RE.lazyPlus (RE.cls true ['"', '\n'] [])),
    RE.alt (RE.cat [RE.star false sClass, reStr "(\""]) (RE.lit '\n')]

/-- `(?:Customer|Licensee|Distributor|Consignee|Buyer|Client):\s*([^"\n]+?)(?:\s*\("|\n)`. -/
def customerPat : RE :=
  RE.cat [RE.altN [reStr "Customer", reStr "Licensee", reStr "Distributor",
      reStr "Consignee", reStr "Buyer", reStr "Client"],
    RE.lit ':', RE.star false sClass,
    RE.grp (RE.lazyPlus (RE.cls true ['"', '\n'] [])),
    RE.alt (RE.cat [RE.star false sClass, reStr "(\""]) (RE.lit '\n')]

/-- `EFFECTIVE DATE:\s*(\w+ \d+, \d{4}|\d{4}-\d{2}-\d{2})` (IGNORECASE). -/
def datePat : RE :=
  RE.cat [reStr "EFFECTIVE DATE:", RE.star false sClass,
    RE.grp (RE.alt
      (RE.cat [RE.plus wClass, RE.lit ' ', RE.plus dClass, RE.lit ',', RE.lit ' ',
        RE.rep 4 dClass])
      (RE.cat [RE.rep 4 dClass, RE.lit '-', RE.rep 2 dClass, RE.lit '-', RE.rep 2 dClass]))]

/-- `(?:TERM|Initial term|INITIAL TERM):\s*(\d+)\s*months` (IGNORECASE). -/
def termPat : RE :=
  RE.cat [RE.altN [reStr "TERM", reStr "Initial term", reStr "INITIAL TERM"],
    RE.lit ':', RE.star false sClass, RE.grp (RE.plus dClass),
    RE.star false sClass, reStr "months"]

/-- `Net[\s-]?(\d+)\s*days?` (IGNORECASE). -/
def paymentPat : RE :=
  RE.cat [reStr "Net", RE.opt sDashClass, RE.grp (RE.plus dClass),
    RE.star false sClass, reStr "day", RE.opt (RE.lit 's')]

/-- The captured amount `([\d,]+(?:\.\d{2})?)` shared by the value patterns. -/
def amountGrp : RE :=
  RE.grp (RE.cat [RE.plus (RE.cls false (',' :: "0123456789".data) []),
    RE.opt (RE.cat [RE.lit '.', RE.rep 2 dClass])])

/-- `Total[^:]*:\s*\$?([\d,]+(?:\.\d{2})?)` and the `Annual` variant (IGNORECASE). -/
def valueLabelPat (label : String) : RE :=
  RE.cat [reStr label, RE.star false (RE.cls true [':'] []), RE.lit ':',
    RE.star false sClass, RE.opt (RE.lit '$'), amountGrp]

/-- `license fee:\s*\$?([\d,]+(?:\.\d{2})?)` and the `subscription fee` variant. -/
def feeLabelPat (label : String) : RE :=
  RE.cat [reStr label, RE.lit ':', RE.star false sClass, RE.opt (RE.lit '$'), amountGrp]

/-- The four total-value patterns of `tools.py`, in priority order. -/
def valuePats : List RE :=
  [valueLabelPat "Total", valueLabelPat "Annual",
   feeLabelPat "license fee", feeLabelPat "subscription fee"]

/-- `right\s+(?:of|to)\s+return|unconditional\s+return` (IGNORECASE). -/
def returnRightsPat : RE :=
  RE.alt
    (RE.cat [reStr "right", RE.plus sClass, RE.alt (reStr "of") (reStr "to"),
      RE.plus sClass, reStr "return"])
    (RE.cat [reStr "unconditional", RE.plus sClass, reStr "return"])

/-- `(\d+)\s*(?:days?|DAYS)\s*(?:of|from)\s*delivery` (IGNORECASE). -/
def returnDaysPat : RE :=
  RE.cat [RE.grp (RE.plus dClass), RE.star false sClass,
    RE.alt (RE.cat [reStr "day", RE.opt (RE.lit 's')]) (reStr "DAYS"),
    RE.star false sClass, RE.alt (reStr "of") (reStr "from"),
    RE.star false sClass, reStr "delivery"]

/-- `auto(?:matic(?:ally)?)?[\s-]?renew` (IGNORECASE). -/
def autoRenewPat : RE :=
  RE.cat [reStr "auto", RE.opt (RE.cat [reStr "matic", RE.opt (reStr "ally")]),
    RE.opt sDashClass, reStr "renew"]

/-- `(?:increase|escalat\w*)\s*(?:by\s*)?(\d+(?:\.\d+)?)\s*(?:percent|%)` (IGNORECASE). -/
def escalationPat : RE :=
  RE.cat [RE.alt (reStr "increase") (RE.cat [reStr "escalat", RE.star false wClass]),
    RE.star false sClass, RE.opt (RE.cat [reStr "by", RE.star false sClass]),
    RE.grp (RE.cat [RE.plus dClass, RE.opt (RE.cat [RE.lit '.', RE.plus dClass])]),
    RE.star false sClass, RE.alt (reStr "percent") (RE.lit '%')]

/-- `consignment|title\s+retention|retains?\s+(?:full\s+)?(?:legal\s+)?title` (IGNORECASE). -/
def consignmentPat : RE :=
  RE.altN [reStr "consignment",
    RE.cat [reStr "title", RE.plus sClass, reStr "retention"],
    RE.cat [reStr "retain", RE.opt (RE.lit 's'), RE.plus sClass,
      RE.opt (RE.cat [reStr "full", RE.plus sClass]),
      RE.opt (RE.cat [reStr "legal", RE.plus sClass]), reStr "title"]]

/-- `most\s+favored\s+customer|MFC|price\s+protection|price\s+match` (IGNORECASE). -/
def mfcPat : RE :=
  RE.altN [RE.cat [reStr "most", RE.plus sClass, reStr "favored", RE.plus sClass,
      reStr "customer"],
    reStr "MFC",
    RE.cat [reStr "price", RE.plus sClass, reStr "protection"],
    RE.cat [reStr "price", RE.plus sClass, reStr "match"]]

/-- `milestone[\s-]?(?:based|payment)|contingent\s+(?:on|upon)` (IGNORECASE). -/
def milestonePat : RE :=
  RE.alt
    (RE.cat [reStr "milestone", RE.opt sDashClass, RE.alt (reStr "based") (reStr "payment")])
    (RE.cat [reStr "contingent", RE.plus sClass, RE.alt (reStr "on") (reStr "upon")])

/-- `liability[^.]*(?:shall\s+)?not\s+exceed[^.]*(\d+\s+months?\s+(?:of\s+)?fees|fees\s+paid|license\s+fee)`
(IGNORECASE). -/
def liabilityPat : RE :=
  RE.cat [reStr "liability", RE.star false (RE.cls true ['.'] []),
    RE.opt (RE.cat [reStr "shall", RE.plus sClass]),
    reStr "not", RE.plus sClass, reStr "exceed",
    RE.star false (RE.cls true ['.'] []),
    RE.grp (RE.altN
      [RE.cat [RE.plus dClass, RE.plus sClass, reStr "month", RE.opt (RE.lit 's'),
        RE.plus sClass, RE.opt (RE.cat [reStr "of", RE.plus sClass]), reStr "fees"],
       RE.cat [reStr "fees", RE.plus sClass, reStr "paid"],
       RE.cat [reStr "license", RE.plus sClass, reStr "fee"]])]

/-- `unlimited\s+liability` (IGNORECASE). -/
def unlimitedPat : RE :=
  RE.cat [reStr "unlimited", RE.plus sClass, reStr "liability"]

/-- `cs[a:b]`. -/
def sliceChars (cs : List Char) (a b : Nat) : List Char :=
  (cs.drop a).take (b - a)

/-- Python `str.strip()` over the ASCII whitespace characters. -/
def pyStrip (cs : List Char) : String :=
  String.mk (((cs.dropWhile (pySpaceChars.contains ·)).reverse.dropWhile
    (pySpaceChars.contains ·)).reverse)

/-- `int` on a digit string matched by `\d+`. -/
def digitsToNat (cs : List Char) : Nat :=
  cs.foldl (fun n c => 10 * n + (c.toNat - '0'.toNat)) 0

/-- Error message of Python `float('')` and friends. -/
def floatErrMsg : String := "ValueError: could not convert string to float"

/-- Python `float(s)` on the strings reachable from the value/escalation
patterns: an optional digit run, an optional `.` followed by digits; at
least one digit overall, otherwise a `ValueError`. -/
def pyFloat (cs : List Char) : Except String Rat :=
  let ip := cs.takeWhile Char.isDigit
  let rest := cs.drop ip.length
  match rest with
  | [] =>
    if ip.length = 0 then .error floatErrMsg
    else .ok (digitsToNat ip)
  | '.' :: fp =>
    if fp.all Char.isDigit ∧ 0 < ip.length + fp.length then
      .ok ((digitsToNat ip : Rat) + (digitsToNat fp : Rat) / ((10 : Rat) ^ fp.length))
    else .error floatErrMsg
  | _ => .error floatErrMsg

/-- `parties` sub-record: `{'provider': ..., 'customer': ...}`. -/
structure Parties where
  provider : String
  customer : String
deriving DecidableEq, Repr

/-- `ExtractedTerms` (`state.py`): every field optional; absence is a key
missing from the Python dict.  Day counts and months are `Int`, monetary
and percentage values `Rat`. -/
structure ExtractedTerms where
  parties : Option Parties := none
  effective_date : Option String := none
  term_months : Option Int := none
  perpetual_license : Option Bool := none
  payment_terms_days : Option Int := none
  total_value : Option Rat := none
  has_return_rights : Option Bool := none
  return_period_days : Option Int := none
  auto_renewal : Option Bool := none
  annual_escalation_percent : Option Rat := none
  consignment : Option Bool := none
  mfc_clause : Option Bool := none
  price_protection : Option Bool := none
  milestone_based : Option Bool := none
  liability_cap : Option String := none
  unlimited_liability : Option Bool := none
deriving DecidableEq, Repr

/-- One role field of the parties block:
`match.group(1).strip() if match else 'Unknown'`. -/
def roleField (pat : RE) (ptext : List Char) : String :=
  match reSearch false false pat ptext with
  | some m =>
    match m.g with
    | some p => pyStrip (sliceChars ptext p.1 p.2)
    | none => "Unknown"
  | none => "Unknown"

/-- Lines 36–45 of `tools.py`: the parties block is located with
`partiesPat` (DOTALL, IGNORECASE); inside its `group(0)` text the provider
and customer labels are searched case-sensitively, defaulting to
`"Unknown"`; no block means no `parties` entry at all. -/
def extractParties (cs : List Char) : Option Parties :=
  match reSearch true true partiesPat cs with
  | none => none
  | some m =>
    let ptext := sliceChars cs m.s m.e
    some { provider := roleField providerPat ptext,
           customer := roleField customerPat ptext }

/-- Lines 47–50: effective date. -/
def extractDate (cs : List Char) : Option String :=
  match reSearch true false datePat cs with
  | some m => m.g.map (fun p => String.mk (sliceChars cs p.1 p.2))
  | none => none

/-- Lines 52–58: term months and the perpetual-license flag. -/
def extractTermMonths (cs : List Char) : Option Int × Option Bool :=
  match reSearch true false termPat cs with
  | some m => (m.g.map (fun p => (digitsToNat (sliceChars cs p.1 p.2) : Int)), none)
  | none =>
    if (reSearch false false (reStr "Perpetual") cs).isSome then (some 0, some true)
    else (none, none)

/-- Lines 60–63: `Net N days`. -/
def extractPayment (cs : List Char) : Option Int :=
  match reSearch true false paymentPat cs with
  | some m => m.g.map (fun p => (digitsToNat (sliceChars cs p.1 p.2) : Int))
  | none => none

/-- Lines 65–76: total value; the first matching pattern wins and its
captured amount, commas stripped, goes through `float` — which raises when
nothing but commas was captured. -/
def extractTotalValue : List Char → List RE → Except String (Option Rat)
  | _, [] => .ok none
  | cs, p :: ps =>
    match reSearch true false p cs with
    | some m =>
      match m.g with
      | some g =>
        match pyFloat ((sliceChars cs g.1 g.2).filter (· ≠ ',')) with
        | .ok v => .ok (some v)
        | .error e => .error e
      | none => .ok none
    | none => extractTotalValue cs ps

/-- Lines 78–84: return rights and the optional return period. -/
def extractReturn (cs : List Char) : Option Bool × Option Int :=
  match reSearch true false returnRightsPat cs with
  | some _ =>
    (some true,
     (reSearch true false returnDaysPat cs).bind
       (fun m => m.g.map (fun p => (digitsToNat (sliceChars cs p.1 p.2) : Int))))
  | none => (none, none)

/-- Lines 86–91: auto-renewal and the optional escalation percentage. -/
def extractRenewal (cs : List Char) : Option Bool × Option Rat :=
  match reSearch true false autoRenewPat cs with
  | some _ =>
    (some true,
     (reSearch true false escalationPat cs).bind (fun m =>
       m.g.bind (fun p =>
         match pyFloat (sliceChars cs p.1 p.2) with
         | .ok v => some v
         | .error _ => none)))
  | none => (none, none)

/-- Lines 106–111: liability cap text, else the unlimited-liability flag. -/
def extractLiability (cs : List Char) : Option String × Option Bool :=
  match reSearch true false liabilityPat cs with
  | some m => (m.g.map (fun p => String.mk (sliceChars cs p.1 p.2)), none)
  | none =>
    if (reSearch true false unlimitedPat cs).isSome then (none, some true)
    else (none, none)

/-- `extract_contract_terms` (`tools.py`, lines 32–113).  The only step
that can raise is the total-value `float` conversion; a raise there
discards the whole record, exactly as the Python exception would. -/
def extract_contract_terms (s : String) : Except String ExtractedTerms :=
  let cs := s.data
  match extractTotalValue cs valuePats with
  | .error e => .error e
  | .ok tv =>
    let tm := extractTermMonths cs
    let rr := extractReturn cs
    let ar := extractRenewal cs
    let lb := extractLiability cs
    .ok { parties := extractParties cs
          effective_date := extractDate cs
          term_months := tm.1
          perpetual_license := tm.2
          payment_terms_days := extractPayment cs
          total_value := tv
          has_return_rights := rr.1
          return_period_days := rr.2
          auto_renewal := ar.1
          annual_escalation_percent := ar.2
          consignment := if (reSearch true false consignmentPat cs).isSome then some true else none
          mfc_clause := if (reSearch true false mfcPat cs).isSome then some true else none
          price_protection := if (reSearch true false mfcPat cs).isSome then some true else none
          milestone_based := if (reSearch true false milestonePat cs).isSome then some true else none
          liability_cap := lb.1
          unlimited_liability := lb.2 }

/-- Modelled from the spec: `data/company_policy.json` is not under
`src/`, so the payment-terms cap is the `config.py` default
`COMPANY_POLICY.get("payment_terms_max_days", 60)`, the value the spec
states for the policy. -/
def PAYMENT_TERMS_MAX_DAYS : Int := 60

/-- Modelled from the spec: the return-period cap is the `config.py`
default `COMPANY_POLICY.get("return_period_max_days", 30)`, the value the
spec states for the policy. -/
def RETURN_PERIOD_MAX_DAYS : Int := 30

/-- Modelled from the spec: the escalation threshold is the `config.py`
default `COMPANY_POLICY.get("auto_escalation_max_percent", 3)`, the value
the spec states for the policy. -/
def AUTO_ESCALATION_MAX_PERCENT : Rat := 3

/-- The fixed internal risk-weight table of `config.py` (lines 41–51). -/
def RISK_WEIGHTS (k : String) : Rat :=
  if k = "extended_payment_terms" then 15
  else if k = "right_of_return" then 25
  else if k = "price_protection" then 30
  else if k = "mfc_clause" then 30
  else if k = "milestone_payments" then 10
  else if k = "consignment" then 35
  else if k = "auto_renewal_high_escalation" then 12
  else if k = "unlimited_liability" then 20
  else if k = "variable_consideration" then 15
  else 0

/-- The `asc_606_risk_factors` policy table: factor name to the optional
`reference` entry of its record (`(k, none)` models a factor present in
the table without a `reference` key). -/
abbrev RefTable := List (String × Option String)

/-- `ASC_606_RISK_FACTORS.get(k, {}).get('reference')`. -/
def refLookup (tbl : RefTable) (k : String) : Option String :=
  (List.lookup k tbl).join

/-- An issue as the checkers build it (`severity` is the Python string). -/
structure Issue where
  type : String
  severity : String
  description : String
  asc_606_reference : Option String
deriving DecidableEq, Repr

/-- A checker result dict. -/
structure CheckResult where
  compliant : Bool
  issues : List Issue
  risk_score_contribution : Rat
deriving DecidableEq, Repr

/-- `check_payment_terms` (`tools.py`, lines 116–138), with the ambient
reference table passed explicitly. -/
def check_payment_terms (tbl : RefTable) (terms : ExtractedTerms) : CheckResult :=
  let payment_days := terms.payment_terms_days.getD 30
  if payment_days > PAYMENT_TERMS_MAX_DAYS then
    let excess_days := payment_days - PAYMENT_TERMS_MAX_DAYS
    { compliant := false,
      issues := [{ type := "extended_payment_terms",
                   severity := if excess_days ≤ 30 then "medium" else "high",
                   description := "Net " ++ toString payment_days ++
                     " exceeds policy limit of " ++ toString PAYMENT_TERMS_MAX_DAYS ++ " days",
                   asc_606_reference := refLookup tbl "extended_payment_terms" }],
      risk_score_contribution :=
        min (RISK_WEIGHTS "extended_payment_terms" * (1 + (excess_days : Rat) / 60)) 25 }
  else
    { compliant := true, issues := [], risk_score_contribution := 0 }

/-- `check_return_rights` (`tools.py`, lines 141–166). -/
def check_return_rights (tbl : RefTable) (terms : ExtractedTerms) : CheckResult :=
  if terms.has_return_rights.getD false = false then
    { compliant := true, issues := [], risk_score_contribution := 0 }
  else
    let return_days := terms.return_period_days.getD 0
    if return_days > RETURN_PERIOD_MAX_DAYS then
      { compliant := false,
        issues := [{ type := "extended_return_period",
                     severity := if return_days > 60 then "high" else "medium",
                     description := toString return_days ++
                       "-day return period exceeds policy limit of " ++
                       toString RETURN_PERIOD_MAX_DAYS ++ " days",
                     asc_606_reference := refLookup tbl "right_of_return" }],
        risk_score_contribution :=
          RISK_WEIGHTS "right_of_return" * (if return_days > 60 then (3 : Rat) / 2 else 1) }
    else
      { compliant := true, issues := [], risk_score_contribution := 0 }

/-- `check_variable_consideration` (`tools.py`, lines 169–220): the four
conditions update the result in sequence exactly as the Python mutations
do. -/
def check_variable_consideration (tbl : RefTable) (terms : ExtractedTerms) : CheckResult :=
  let r0 : CheckResult := { compliant := true, issues := [], risk_score_contribution := 0 }
  let r1 :=
    if terms.mfc_clause.getD false then
      { compliant := false,
        issues := r0.issues ++
          [{ type := "mfc_clause", severity := "high",
             description := "Most Favored Customer clause creates open-ended variable consideration",
             asc_606_reference := refLookup tbl "price_protection" }],
        risk_score_contribution := r0.risk_score_contribution + RISK_WEIGHTS "mfc_clause" }
    else r0
  let r2 :=
    if terms.milestone_based.getD false then
      { r1 with
        issues := r1.issues ++
          [{ type := "milestone_payments", severity := "medium",
             description := "Milestone-based payments may require constraint on variable consideration",
             asc_606_reference := refLookup tbl "milestone_payments" }],
        risk_score_contribution := r1.risk_score_contribution + RISK_WEIGHTS "milestone_payments" }
    else r1
  let r3 :=
    if terms.consignment.getD false then
      { compliant := false,
        issues := r2.issues ++
          [{ type := "consignment", severity := "high",
             description := "Consignment arrangement fails transfer of control criteria",
             asc_606_reference := refLookup tbl "consignment" }],
        risk_score_contribution := r2.risk_score_contribution + RISK_WEIGHTS "consignment" }
    else r2
  let escalation := terms.annual_escalation_percent.getD 0
  if escalation > AUTO_ESCALATION_MAX_PERCENT then
    { r3 with
      issues := r3.issues ++
        [{ type := "high_escalation", severity := "medium",
           description := toString escalation ++ "% annual escalation exceeds " ++
             toString AUTO_ESCALATION_MAX_PERCENT ++ "% policy threshold",
           asc_606_reference := none }],
      risk_score_contribution :=
        r3.risk_score_contribution + RISK_WEIGHTS "auto_renewal_high_escalation" }
  else r3

/-- Python `int(x)` on a float/rational: truncation toward zero. -/
def pyInt (q : Rat) : Int :=
  if q < 0 then -⌊-q⌋ else ⌊q⌋

/-- `calculate_risk_score` (`tools.py`, lines 223–236):
`min(int(total), 100)`. -/
def calculate_risk_score (payment_check return_check variable_check : CheckResult) : Int :=
  let total_score :=
    payment_check.risk_score_contribution +
    return_check.risk_score_contribution +
    variable_check.risk_score_contribution
  min (pyInt total_score) 100

/-- The aggregation formula stated by the spec's words
(`min(round(sum), 100)`), for comparison with `calculate_risk_score`. -/
def spec_risk_score (payment_check return_check variable_check : CheckResult) : Int :=
  min (round (payment_check.risk_score_contribution +
    return_check.risk_score_contribution +
    variable_check.risk_score_contribution)) 100

/-- `get_recommendation_from_score` (`state.py`, lines 105–112). -/
def get_recommendation_from_score (score : Int) : String :=
  if score ≤ 30 then "approve"
  else if score ≤ 60 then "legal_review"
  else "reject"

/-- The resolver's verdict record (`state.py`). -/
structure ResolverVerdict where
  risk_score : Int
  confidence : Int
  recommendation : String
  reasoning : String
  key_factors : List String
deriving DecidableEq, Repr

/-- A trace entry (`state.py`). -/
structure TraceStep where
  step : Int
  tool : String
  summary : String
deriving DecidableEq, Repr

/-- The deterministic fallback of `resolver_node` (`agent.py`,
lines 237–250): when the model response cannot be parsed, the verdict is
computed from the checker results alone. -/
def resolver_fallback_verdict (response_content : String)
    (payment_check return_check variable_check : CheckResult) : ResolverVerdict :=
  let risk_score := calculate_risk_score payment_check return_check variable_check
  { risk_score := risk_score,
    confidence := 70,
    recommendation := if risk_score > 30 then "legal_review" else "approve",
    reasoning := response_content,
    key_factors := ["See detailed analysis"] }

/-- The trace entry `resolver_node` appends (`agent.py`, lines 253–257). -/
def resolver_trace_step (verdict : ResolverVerdict) : TraceStep :=
  { step := 7,
    tool := "resolve_debate",
    summary := "Verdict: " ++ verdict.recommendation.toUpper ++
      " (score " ++ toString verdict.risk_score ++ "/100)" }

/-- The reference key `check_variable_consideration` actually uses for an
issue of the given type: `mfc_clause` issues are looked up under
`price_protection`, `high_escalation` issues carry a hard-coded null
reference, and the remaining types are looked up under their own name. -/
def vcExpectedRef (tbl : RefTable) (t : String) : Option String :=
  if t = "mfc_clause" then refLookup tbl "price_protection"
  else if t = "milestone_payments" then refLookup tbl "milestone_payments"
  else if t = "consignment" then refLookup tbl "consignment"
  else none

theorem pyInt_nonneg (q : Rat) (h : 0 ≤ q) : 0 ≤ pyInt q := by
  unfold pyInt
  rw [if_neg (not_lt.mpr h)]
  exact Int.floor_nonneg.mpr h

theorem pyInt_cast_le (q : Rat) (h : 0 ≤ q) : (pyInt q : Rat) ≤ q := by
  unfold pyInt
  rw [if_neg (not_lt.mpr h)]
  exact Int.floor_le q

theorem RISK_WEIGHTS_payment : RISK_WEIGHTS "extended_payment_terms" = 15 := rfl

theorem RISK_WEIGHTS_return : RISK_WEIGHTS "right_of_return" = 25 := rfl

theorem RISK_WEIGHTS_mfc : RISK_WEIGHTS "mfc_clause" = 30 := rfl

theorem RISK_WEIGHTS_milestone : RISK_WEIGHTS "milestone_payments" = 10 := rfl

theorem RISK_WEIGHTS_consign : RISK_WEIGHTS "consignment" = 35 := rfl

theorem RISK_WEIGHTS_escal : RISK_WEIGHTS "auto_renewal_high_escalation" = 12 := rfl

theorem check_payment_terms_empty :
    check_payment_terms [] {} = ⟨true, [], 0⟩ := rfl

theorem check_return_rights_empty :
    check_return_rights [] {} = ⟨true, [], 0⟩ := rfl

theorem check_variable_consideration_empty :
    check_variable_consideration [] {} = ⟨true, [], 0⟩ := rfl

theorem check_return_rights_ninety :
    (check_return_rights []
      { has_return_rights := some true, return_period_days := some 90 }).compliant = false ∧
    (check_return_rights []
      { has_return_rights := some true,
        return_period_days := some 90 }).risk_score_contribution = 75 / 2 := by
  refine ⟨rfl, ?_⟩
  show (25 : Rat) * ((3 : Rat) / 2) = 75 / 2
  norm_num

theorem check_variable_mfc_consign :
    (check_variable_consideration []
      { mfc_clause := some true, consignment := some true }).compliant = false ∧
    (check_variable_consideration []
      { mfc_clause := some true,
        consignment := some true }).risk_score_contribution = 65 := by
  refine ⟨rfl, ?_⟩
  show (0 : Rat) + 30 + 35 = 65
  norm_num

/-- C1: `get_recommendation_from_score` maps `s ≤ 30` to `approve`,
`31 ≤ s ≤ 60` to `legal_review`, and `s ≥ 61` to `reject`; in particular
`approve` at 30 and `legal_review` at 60 (boundaries belong to the lower
band), and the six spec boundary values behave exactly as stated. -/
theorem claim_C1_recommendation_bands :
    (∀ s : Int,
      (s ≤ 30 → get_recommendation_from_score s = "approve") ∧
      (31 ≤ s → s ≤ 60 → get_recommendation_from_score s = "legal_review") ∧
      (61 ≤ s → get_recommendation_from_score s = "reject")) ∧
    get_recommendation_from_score 29 = "approve" ∧
    get_recommendation_from_score 30 = "approve" ∧
    get_recommendation_from_score 31 = "legal_review" ∧
    get_recommendation_from_score 60 = "legal_review" ∧
    get_recommendation_from_score 61 = "reject" ∧
    get_recommendation_from_score 100 = "reject" := by
  constructor
  · intro s
    refine ⟨fun h => ?_, fun h1 h2 => ?_, fun h => ?_⟩ <;>
      simp only [get_recommendation_from_score] <;>
      split_ifs <;> first | rfl | (exfalso; omega)
  · exact ⟨by decide, by decide, by decide, by decide, by decide, by decide⟩

/-- C1 witness: the proved band description applied at the boundary
score 30 yields `approve`. -/
theorem claim_C1_recommendation_bands_witness :
    get_recommendation_from_score 30 = "approve" :=
  (claim_C1_recommendation_bands.1 30).1 (by decide)

/-- C2 counterexample: with the actual checker outputs for a 90-day
return period the contributions sum to 37.5; `calculate_risk_score`
truncates this to 37, while the claimed `min(round(sum), 100)` formula
gives 38. -/
theorem claim_C2_counterexample :
    calculate_risk_score (check_payment_terms [] {})
      (check_return_rights [] { has_return_rights := some true, return_period_days := some 90 })
      (check_variable_consideration [] {}) = 37 ∧
    spec_risk_score (check_payment_terms [] {})
      (check_return_rights [] { has_return_rights := some true, return_period_days := some 90 })
      (check_variable_consideration [] {}) = 38 := by
  constructor
  · simp only [calculate_risk_score, check_payment_terms_empty,
      check_return_rights_ninety.2, check_variable_consideration_empty]
    norm_num [pyInt]
  · simp only [spec_risk_score, check_payment_terms_empty,
      check_return_rights_ninety.2, check_variable_consideration_empty]
    rw [round_eq]
    norm_num

/-- C2 (amended): for every triple of check results,
`calculate_risk_score` returns `min(int(c1 + c2 + c3), 100)` where `int`
truncates toward zero (not `round`); the result is an integer, equals the
truncated sum whenever the sum is below 100, and lies in `[0, 100]`
whenever the contributions are non-negative. -/
theorem claim_C2_amended :
    ∀ p r v : CheckResult,
      calculate_risk_score p r v =
        min (pyInt (p.risk_score_contribution + r.risk_score_contribution +
          v.risk_score_contribution)) 100 ∧
      (0 ≤ p.risk_score_contribution → 0 ≤ r.risk_score_contribution →
        0 ≤ v.risk_score_contribution →
        0 ≤ calculate_risk_score p r v ∧ calculate_risk_score p r v ≤ 100 ∧
        (p.risk_score_contribution + r.risk_score_contribution +
            v.risk_score_contribution < 100 →
          calculate_risk_score p r v =
            pyInt (p.risk_score_contribution + r.risk_score_contribution +
              v.risk_score_contribution))) := by
  intro p r v
  refine ⟨rfl, fun hp hr hv => ?_⟩
  have ht : 0 ≤ p.risk_score_contribution + r.risk_score_contribution +
      v.risk_score_contribution := by positivity
  have h1 : 0 ≤ pyInt (p.risk_score_contribution + r.risk_score_contribution +
      v.risk_score_contribution) := pyInt_nonneg _ ht
  refine ⟨le_min h1 (by norm_num), min_le_right _ _, fun hlt => ?_⟩
  have h2 : (pyInt (p.risk_score_contribution + r.risk_score_contribution +
      v.risk_score_contribution) : Rat) < 100 :=
    lt_of_le_of_lt (pyInt_cast_le _ ht) hlt
  have h3 : pyInt (p.risk_score_contribution + r.risk_score_contribution +
      v.risk_score_contribution) < 100 := by exact_mod_cast h2
  exact min_eq_left (le_of_lt h3)

/-- C2 witness: the amended aggregation bounds applied at a concrete
triple of compliant check results (score 0). -/
theorem claim_C2_amended_witness :
    0 ≤ calculate_risk_score (check_payment_terms [] {}) (check_payment_terms [] {})
      (check_payment_terms [] {}) :=
  ((claim_C2_amended (check_payment_terms [] {}) (check_payment_terms [] {})
    (check_payment_terms [] {})).2 (by simp [check_payment_terms_empty])
    (by simp [check_payment_terms_empty]) (by simp [check_payment_terms_empty])).1

/-- C3 counterexample: for checker outputs with aggregated score 65
(MFC clause plus consignment), the resolver fallback recommends
`legal_review`, whereas the §4.4 mapping at 65 gives `reject`, so the
fallback recommendation is not the §4.4 mapping of the score. -/
theorem claim_C3_counterexample :
    calculate_risk_score (check_payment_terms [] {}) (check_return_rights [] {})
      (check_variable_consideration []
        { mfc_clause := some true, consignment := some true }) = 65 ∧
    (resolver_fallback_verdict "timeout" (check_payment_terms [] {})
      (check_return_rights [] {})
      (check_variable_consideration []
        { mfc_clause := some true, consignment := some true })).recommendation =
      "legal_review" ∧
    get_recommendation_from_score 65 = "reject" ∧
    ("legal_review" : String) ≠ "reject" := by
  have hscore : calculate_risk_score (check_payment_terms [] {}) (check_return_rights [] {})
      (check_variable_consideration []
        { mfc_clause := some true, consignment := some true }) = 65 := by
    simp only [calculate_risk_score, check_payment_terms_empty, check_return_rights_empty,
      check_variable_mfc_consign.2]
    norm_num [pyInt]
  refine ⟨hscore, ?_, by decide, by decide⟩
  simp only [resolver_fallback_verdict, hscore]
  norm_num

/-- C3 (amended): when the resolver model output cannot be parsed, the
fallback verdict has the aggregated checker score as `risk_score`, the
fixed confidence 70, and recommendation `legal_review` when the score
exceeds 30 and `approve` otherwise — which agrees with the §4.4 mapping
for scores up to 60 but yields `legal_review` instead of `reject` for
scores of 61 and above; the trace records the resolver step
(`step 7`, `resolve_debate`). -/
theorem claim_C3_amended :
    ∀ (content : String) (p r v : CheckResult),
      (resolver_fallback_verdict content p r v).risk_score =
        calculate_risk_score p r v ∧
      (resolver_fallback_verdict content p r v).confidence = 70 ∧
      (resolver_fallback_verdict content p r v).recommendation =
        (if 30 < calculate_risk_score p r v then "legal_review" else "approve") ∧
      (calculate_risk_score p r v ≤ 60 →
        (resolver_fallback_verdict content p r v).recommendation =
          get_recommendation_from_score (calculate_risk_score p r v)) ∧
      (resolver_trace_step (resolver_fallback_verdict content p r v)).step = 7 ∧
      (resolver_trace_step (resolver_fallback_verdict content p r v)).tool =
        "resolve_debate" := by
  intro content p r v
  refine ⟨rfl, rfl, rfl, fun h => ?_, rfl, rfl⟩
  simp only [resolver_fallback_verdict, get_recommendation_from_score]
  split_ifs <;> first | rfl | (exfalso; omega)

/-- C3 witness: the amended fallback description applied at concrete
all-compliant checker outputs (score 0, recommendation `approve`). -/
theorem claim_C3_amended_witness :
    (resolver_fallback_verdict "timeout" (check_payment_terms [] {})
      (check_payment_terms [] {}) (check_payment_terms [] {})).recommendation =
      get_recommendation_from_score (calculate_risk_score (check_payment_terms [] {})
        (check_payment_terms [] {}) (check_payment_terms [] {})) :=
  (claim_C3_amended "timeout" (check_payment_terms [] {}) (check_payment_terms [] {})
    (check_payment_terms [] {})).2.2.2.1
    (by simp [calculate_risk_score, check_payment_terms_empty, pyInt])

/-- C4: `check_payment_terms` (defaulting `payment_terms_days` to 30)
returns compliant with no issues and zero contribution iff the payment
days are at most the 60-day cap; otherwise it is non-compliant with one
issue whose severity is `medium` when the excess is at most 30 days and
`high` otherwise, and contribution `min(15 × (1 + excess/60), 25)`;
concretely 60 days gives compliant/0, 90 days medium/22.5, and 150 days
high/25. -/
theorem claim_C4_payment_terms :
    (∀ (tbl : RefTable) (terms : ExtractedTerms),
      ((check_payment_terms tbl terms).compliant = true ∧
        (check_payment_terms tbl terms).issues = [] ∧
        (check_payment_terms tbl terms).risk_score_contribution = 0) ↔
        terms.payment_terms_days.getD 30 ≤ 60) ∧
    (∀ (tbl : RefTable) (terms : ExtractedTerms),
      60 < terms.payment_terms_days.getD 30 →
      (check_payment_terms tbl terms).compliant = false ∧
      ((check_payment_terms tbl terms).issues.map Issue.severity) =
        [if terms.payment_terms_days.getD 30 - 60 ≤ 30 then "medium" else "high"] ∧
      (check_payment_terms tbl terms).risk_score_contribution =
        min (15 * (1 + ((terms.payment_terms_days.getD 30 - 60 : Int) : Rat) / 60)) 25) ∧
    check_payment_terms [] { payment_terms_days := some 60 } = ⟨true, [], 0⟩ ∧
    (check_payment_terms [] { payment_terms_days := some 90 }).compliant = false ∧
    ((check_payment_terms [] { payment_terms_days := some 90 }).issues.map Issue.severity) =
      ["medium"] ∧
    (check_payment_terms []
      { payment_terms_days := some 90 }).risk_score_contribution = 45 / 2 ∧
    ((check_payment_terms [] { payment_terms_days := some 150 }).issues.map Issue.severity) =
      ["high"] ∧
    (check_payment_terms []
      { payment_terms_days := some 150 }).risk_score_contribution = 25 := by
  refine ⟨?_, ?_, rfl, rfl, rfl, ?_, rfl, ?_⟩
  · intro tbl terms
    simp only [check_payment_terms, PAYMENT_TERMS_MAX_DAYS]
    split_ifs with hgt <;> simp <;> omega
  · intro tbl terms h
    simp only [check_payment_terms, PAYMENT_TERMS_MAX_DAYS]
    rw [if_pos h]
    exact ⟨rfl, rfl, by rw [RISK_WEIGHTS_payment]⟩
  · show min ((15 : Rat) * (1 + ((30 : Int) : Rat) / 60)) 25 = 45 / 2
    norm_num [min_def]
  · show min ((15 : Rat) * (1 + ((90 : Int) : Rat) / 60)) 25 = 25
    norm_num [min_def]

/-- C4 witness: the non-compliance description applied at the concrete
90-day payment terms. -/
theorem claim_C4_payment_terms_witness :
    (check_payment_terms [] { payment_terms_days := some 90 }).compliant = false :=
  (claim_C4_payment_terms.2.1 [] { payment_terms_days := some 90 } (by decide)).1

/-- C6: `check_return_rights` is fully compliant with an empty issue list
and zero contribution whenever `has_return_rights` is absent or false,
regardless of any `return_period_days` value; with return rights it is
compliant iff the period (defaulting to 0) is at most the 30-day cap, and
otherwise carries one issue of severity `high` when the period exceeds 60
days and `medium` otherwise, with contribution `25 × 1.5` past 60 days
and `25 × 1.0` otherwise; concretely a 90-day period gives non-compliant,
high severity, contribution 37.5. -/
theorem claim_C6_return_rights :
    (∀ (tbl : RefTable) (terms : ExtractedTerms),
      terms.has_return_rights.getD false = false →
      check_return_rights tbl terms = ⟨true, [], 0⟩) ∧
    (∀ (tbl : RefTable) (terms : ExtractedTerms),
      terms.has_return_rights.getD false = true →
      (((check_return_rights tbl terms).compliant = true ∧
        (check_return_rights tbl terms).issues = [] ∧
        (check_return_rights tbl terms).risk_score_contribution = 0) ↔
        terms.return_period_days.getD 0 ≤ 30) ∧
      (30 < terms.return_period_days.getD 0 →
        (check_return_rights tbl terms).compliant = false ∧
        ((check_return_rights tbl terms).issues.map Issue.severity) =
          [if 60 < terms.return_period_days.getD 0 then "high" else "medium"] ∧
        (check_return_rights tbl terms).risk_score_contribution =
          25 * (if 60 < terms.return_period_days.getD 0 then (3 : Rat) / 2 else 1))) ∧
    (check_return_rights []
      { has_return_rights := some true, return_period_days := some 90 }).compliant = false ∧
    ((check_return_rights []
      { has_return_rights := some true, return_period_days := some 90 }).issues.map
        Issue.severity) = ["high"] ∧
    (check_return_rights []
      { has_return_rights := some true,
        return_period_days := some 90 }).risk_score_contribution = 75 / 2 := by
  refine ⟨?_, ?_, rfl, rfl, check_return_rights_ninety.2⟩
  · intro tbl terms h
    unfold check_return_rights
    rw [h]
    rfl
  · intro tbl terms h
    unfold check_return_rights
    rw [h]
    constructor
    · simp only [RETURN_PERIOD_MAX_DAYS]
      rw [if_neg (by decide)]
      split_ifs with hgt <;> simp <;> omega
    · intro hgt
      simp only [RETURN_PERIOD_MAX_DAYS]
      rw [if_neg (by decide), if_pos hgt]
      exact ⟨rfl, rfl, by rw [RISK_WEIGHTS_return]⟩

/-- C6 witness: the no-op branch applied at concrete terms with
`has_return_rights = false` and a present 90-day period. -/
theorem claim_C6_return_rights_witness :
    check_return_rights []
      { has_return_rights := some false, return_period_days := some 90 } = ⟨true, [], 0⟩ :=
  claim_C6_return_rights.1 []
    { has_return_rights := some false, return_period_days := some 90 } (by decide)

/-- C10: when `has_return_rights` is true but `return_period_days` is
absent, `check_return_rights` treats the period as 0 days and returns
compliant with an empty issue list and zero contribution. -/
theorem claim_C10_missing_period :
    ∀ (tbl : RefTable) (terms : ExtractedTerms),
      terms.has_return_rights = some true →
      terms.return_period_days = none →
      check_return_rights tbl terms = ⟨true, [], 0⟩ := by
  intro tbl terms h1 h2
  unfold check_return_rights
  rw [h1, h2]
  rfl

/-- C10 witness: the missing-period case applied at concrete terms with
return rights and no period. -/
theorem claim_C10_missing_period_witness :
    check_return_rights [] { has_return_rights := some true } = ⟨true, [], 0⟩ :=
  claim_C10_missing_period [] { has_return_rights := some true } rfl rfl

/-- C5: `check_variable_consideration` evaluates its four conditions
additively: an MFC clause makes the result non-compliant and adds a
high-severity issue with weight 30; milestone-based payments add a
medium-severity issue with weight 10 without touching the compliant flag;
consignment makes it non-compliant with a high-severity issue and weight
35; escalation above the threshold 3 adds a medium-severity issue with
weight 12 without touching the compliant flag; the contribution is the
uncapped sum over firing conditions, and MFC together with consignment
gives non-compliant with contribution 65. -/
theorem claim_C5_variable_consideration :
    (∀ (tbl : RefTable) (terms : ExtractedTerms),
      (check_variable_consideration tbl terms).compliant =
        (!(terms.mfc_clause.getD false || terms.consignment.getD false)) ∧
      (check_variable_consideration tbl terms).risk_score_contribution =
        ((if terms.mfc_clause.getD false then (30 : Rat) else 0) +
         (if terms.milestone_based.getD false then (10 : Rat) else 0) +
         (if terms.consignment.getD false then (35 : Rat) else 0) +
         (if 3 < terms.annual_escalation_percent.getD 0 then (12 : Rat) else 0)) ∧
      (terms.mfc_clause.getD false = true →
        ({ type := "mfc_clause", severity := "high",
           description := "Most Favored Customer clause creates open-ended variable consideration",
           asc_606_reference := refLookup tbl "price_protection" } : Issue) ∈
          (check_variable_consideration tbl terms).issues) ∧
      (terms.milestone_based.getD false = true →
        ({ type := "milestone_payments", severity := "medium",
           description := "Milestone-based payments may require constraint on variable consideration",
           asc_606_reference := refLookup tbl "milestone_payments" } : Issue) ∈
          (check_variable_consideration tbl terms).issues) ∧
      (terms.consignment.getD false = true →
        ({ type := "consignment", severity := "high",
           description := "Consignment arrangement fails transfer of control criteria",
           asc_606_reference := refLookup tbl "consignment" } : Issue) ∈
          (check_variable_consideration tbl terms).issues) ∧
      (3 < terms.annual_escalation_percent.getD 0 →
        ∃ i ∈ (check_variable_consideration tbl terms).issues,
          i.type = "high_escalation" ∧ i.severity = "medium" ∧
          i.asc_606_reference = none)) ∧
    (check_variable_consideration []
      { mfc_clause := some true, consignment := some true }).compliant = false ∧
    (check_variable_consideration []
      { mfc_clause := some true,
        consignment := some true }).risk_score_contribution = 65 := by
  refine ⟨?_, check_variable_mfc_consign.1, check_variable_mfc_consign.2⟩
  intro tbl terms
  by_cases he : (3 : Rat) < terms.annual_escalation_percent.getD 0 <;>
    cases hm : terms.mfc_clause.getD false <;>
    cases hms : terms.milestone_based.getD false <;>
    cases hc : terms.consignment.getD false <;>
    simp [check_variable_consideration, AUTO_ESCALATION_MAX_PERCENT, hm, hms, hc, he,
      RISK_WEIGHTS_mfc, RISK_WEIGHTS_milestone, RISK_WEIGHTS_consign,
      RISK_WEIGHTS_escal]

/-- C5 witness: the additive description applied at concrete terms with
both MFC clause and consignment, exhibiting the MFC issue. -/
theorem claim_C5_variable_consideration_witness :
    ({ type := "mfc_clause", severity := "high",
       description := "Most Favored Customer clause creates open-ended variable consideration",
       asc_606_reference := refLookup [] "price_protection" } : Issue) ∈
      (check_variable_consideration []
        { mfc_clause := some true, consignment := some true }).issues :=
  (claim_C5_variable_consideration.1 []
    { mfc_clause := some true, consignment := some true }).2.2.1 rfl

/-- C7 counterexample: with a policy table containing only a
`right_of_return` entry, the 90-day return check emits an issue of type
`extended_return_period` — a type with no table entry — whose reference is
nonetheless that entry's value, not null: the lookup is not keyed by the
issue's type. -/
theorem claim_C7_counterexample :
    ((check_return_rights [("right_of_return", some "ASC 606-10-55-22")]
      { has_return_rights := some true, return_period_days := some 90 }).issues.map
        Issue.type) = ["extended_return_period"] ∧
    ((check_return_rights [("right_of_return", some "ASC 606-10-55-22")]
      { has_return_rights := some true, return_period_days := some 90 }).issues.map
        Issue.asc_606_reference) = [some "ASC 606-10-55-22"] ∧
    refLookup [("right_of_return", some "ASC 606-10-55-22")] "extended_return_period" =
      none := by
  exact ⟨rfl, rfl, rfl⟩

/-- C7 (amended): for every policy table no checker raises (the embedded
checkers are total functions of the table), an absent table entry yields a
null reference, and each issue's reference is obtained by a lookup under a
fixed per-issue factor key: `extended_payment_terms` for the payment
checker, `right_of_return` for the return checker (whose issue type is
`extended_return_period`), and for the variable-consideration checker the
key given by `vcExpectedRef` (`price_protection` for `mfc_clause` issues,
the issue's own type for `milestone_payments` and `consignment`, and a
hard-coded null for `high_escalation`). -/
theorem claim_C7_amended :
    (∀ (tbl : RefTable) (k : String), List.lookup k tbl = none → refLookup tbl k = none) ∧
    (∀ (tbl : RefTable) (terms : ExtractedTerms),
      ∀ i ∈ (check_payment_terms tbl terms).issues,
        i.asc_606_reference = refLookup tbl "extended_payment_terms" ∧
        i.type = "extended_payment_terms") ∧
    (∀ (tbl : RefTable) (terms : ExtractedTerms),
      ∀ i ∈ (check_return_rights tbl terms).issues,
        i.asc_606_reference = refLookup tbl "right_of_return" ∧
        i.type = "extended_return_period") ∧
    (∀ (tbl : RefTable) (terms : ExtractedTerms),
      ∀ i ∈ (check_variable_consideration tbl terms).issues,
        i.asc_606_reference = vcExpectedRef tbl i.type) := by
  refine ⟨?_, ?_, ?_, ?_⟩
  · intro tbl k h
    unfold refLookup
    rw [h]
    rfl
  · intro tbl terms
    simp only [check_payment_terms]
    split_ifs <;> simp
  · intro tbl terms
    simp only [check_return_rights]
    split_ifs <;> simp
  · intro tbl terms
    by_cases he : (3 : Rat) < terms.annual_escalation_percent.getD 0 <;>
      cases hm : terms.mfc_clause.getD false <;>
      cases hms : terms.milestone_based.getD false <;>
      cases hc : terms.consignment.getD false <;>
      simp [check_variable_consideration, AUTO_ESCALATION_MAX_PERCENT, hm, hms, hc, he,
        vcExpectedRef]

/-- C7 witness: the amended lookup description applied at the concrete
table whose only entry is `right_of_return` and the 90-day return terms. -/
theorem claim_C7_amended_witness :
    ({ type := "extended_return_period", severity := "high",
       description := "90-day return period exceeds policy limit of 30 days",
       asc_606_reference := some "ASC 606-10-55-22" } : Issue).asc_606_reference =
      refLookup [("right_of_return", some "ASC 606-10-55-22")] "right_of_return" ∧
    ({ type := "extended_return_period", severity := "high",
       description := "90-day return period exceeds policy limit of 30 days",
       asc_606_reference := some "ASC 606-10-55-22" } : Issue).type =
      "extended_return_period" :=
  claim_C7_amended.2.2.1 [("right_of_return", some "ASC 606-10-55-22")]
    { has_return_rights := some true, return_period_days := some 90 }
    { type := "extended_return_period", severity := "high",
      description := "90-day return period exceeds policy limit of 30 days",
      asc_606_reference := some "ASC 606-10-55-22" }
    (by decide)

/-- C8 counterexample: on the empty contract text extraction succeeds but
the resulting record has no `parties` entry at all, so the extracted terms
do not always contain provider and customer strings. -/
theorem claim_C8_counterexample :
    extract_contract_terms "" = .ok ({} : ExtractedTerms) ∧
    ({} : ExtractedTerms).parties = none :=
  ⟨rfl, rfl⟩

/-- C8 (amended): the `parties` field of a successful extraction is
exactly `extractParties` of the text; when the PARTIES-section pattern
does not match, the field is absent, and when it matches, provider and
customer strings are always present, each falling back to the literal
sentinel `"Unknown"` whenever its role-label pattern finds no match in
the section; concretely, the text `"PARTIES:\nEFFECTIVE"` yields
`provider = customer = "Unknown"`. -/
theorem claim_C8_amended :
    (∀ (s : String) (t : ExtractedTerms),
      extract_contract_terms s = .ok t → t.parties = extractParties s.data) ∧
    (∀ cs : List Char, reSearch true true partiesPat cs = none →
      extractParties cs = none) ∧
    (∀ (cs : List Char) (m : MatchRes), reSearch true true partiesPat cs = some m →
      extractParties cs = some
        { provider := roleField providerPat (sliceChars cs m.s m.e),
          customer := roleField customerPat (sliceChars cs m.s m.e) }) ∧
    (∀ (pat : RE) (ptext : List Char), reSearch false false pat ptext = none →
      roleField pat ptext = "Unknown") ∧
    extract_contract_terms "PARTIES:\nEFFECTIVE" =
      .ok { parties := some { provider := "Unknown", customer := "Unknown" } } := by
  refine ⟨?_, ?_, ?_, ?_, rfl⟩
  · intro s t h
    simp only [extract_contract_terms] at h
    cases hv : extractTotalValue s.data valuePats with
    | error e =>
      rw [hv] at h
      cases h
    | ok tv =>
      rw [hv] at h
      cases h
      rfl
  · intro cs h
    unfold extractParties
    rw [h]
  · intro cs m h
    unfold extractParties
    rw [h]
  · intro pat ptext h
    unfold roleField
    rw [h]

/-- C8 witness: the sentinel default applied at the concrete parties block
`"PARTIES:"`, where the provider label does not match. -/
theorem claim_C8_amended_witness :
    roleField providerPat ("PARTIES:".data) = "Unknown" :=
  claim_C8_amended.2.2.2.1 providerPat ("PARTIES:".data) (by decide)

/-- C9: the extractor is not total: on the input `"Total: ,"` the first
total-value pattern matches with captured group `","`, comma-stripping
leaves the empty string, and the float conversion raises `ValueError`, so
the embedded extractor returns that error instead of a term record. -/
theorem claim_C9_extractor_raises :
    extract_contract_terms "Total: ," = .error floatErrMsg :=
  rfl

end ContractGuard
